import Mathlib

/-!
Shallow embedding of the `ad_hoc_result` Rust library (src/src/lib.rs).

The library defines a three-variant result type `AdHocResult<T, E>` with
variants `Ok(T)`, `AdHoc(T, E)` and `Err(E)`, extraction operations
(`expect`, `unwrap`, `expect_adhoc`, `unwrap_adhoc`), conversions to the
standard two-variant `Result<T, E>` (`to_result`, `to_result_with_adhoc`),
the `From<Result>` / `From<AdHocResult>` conversions, and constructors
(`new_ok`, `new_adhoc`, `new_err`).

Panicking extraction operations are modelled as functions into
`Except String T`: `.error msg` corresponds to `panic!("{}", msg)` and
`.ok x` to a normal return of `x`. Rust's `Result<T, E>` is modelled by
the two-variant type `RResult T E` below.
-/

/-- Model of Rust's standard `Result<T, E>`. -/
inductive RResult (T E : Type) where
  | Ok : T → RResult T E
  | Err : E → RResult T E
deriving DecidableEq, Repr

/-- Model of the library's `AdHocResult<T, E>` enum (src/src/lib.rs lines 39-46):
`Ok(T)` is full success, `AdHoc(T, E)` carries both a recommended value and an
error, `Err(E)` is complete failure. -/
inductive AdHocResult (T E : Type) where
  | Ok : T → AdHocResult T E
  | AdHoc : T → E → AdHocResult T E
  | Err : E → AdHocResult T E
deriving DecidableEq, Repr

namespace AdHocResult

variable {T E : Type}

/-- Embedding of `AdHocResult::expect` (lib.rs lines 63-68): returns the `Ok`
payload, otherwise panics with the supplied message. -/
def expect (self : AdHocResult T E) (message : String) : Except String T :=
  match self with
  | AdHocResult.Ok x => Except.ok x
  | _ => Except.error message

/-- Embedding of `AdHocResult::unwrap` (lib.rs lines 84-86):
`self.expect("Unwrap fails")`. -/
def unwrap (self : AdHocResult T E) : Except String T :=
  self.expect "Unwrap fails"

/-- Embedding of `AdHocResult::expect_adhoc` (lib.rs lines 102-108): returns
the payload of `Ok` or `AdHoc`, otherwise panics with the supplied message. -/
def expect_adhoc (self : AdHocResult T E) (message : String) : Except String T :=
  match self with
  | AdHocResult.Ok x => Except.ok x
  | AdHocResult.AdHoc x _ => Except.ok x
  | _ => Except.error message

/-- Embedding of `AdHocResult::unwrap_adhoc` (lib.rs lines 124-126):
`self.expect_adhoc("Unwrap fails")`. -/
def unwrap_adhoc (self : AdHocResult T E) : Except String T :=
  self.expect_adhoc "Unwrap fails"

/-- Embedding of `AdHocResult::to_result` (lib.rs lines 147-153). -/
def to_result (self : AdHocResult T E) : RResult T E :=
  match self with
  | AdHocResult.Ok v => RResult.Ok v
  | AdHocResult.AdHoc _ e => RResult.Err e
  | AdHocResult.Err e => RResult.Err e

/-- Embedding of `AdHocResult::to_result_with_adhoc` (lib.rs lines 175-181). -/
def to_result_with_adhoc (self : AdHocResult T E) : RResult T E :=
  match self with
  | AdHocResult.Ok v => RResult.Ok v
  | AdHocResult.AdHoc v _ => RResult.Ok v
  | AdHocResult.Err e => RResult.Err e

/-- Embedding of `AdHocResult::new_ok` (lib.rs lines 260-262). -/
def new_ok (value : T) : AdHocResult T E :=
  AdHocResult.Ok value

/-- Embedding of `AdHocResult::new_adhoc` (lib.rs lines 274-276). -/
def new_adhoc (value : T) (error : E) : AdHocResult T E :=
  AdHocResult.AdHoc value error

/-- Embedding of `AdHocResult::new_err` (lib.rs lines 288-290). -/
def new_err (error : E) : AdHocResult T E :=
  AdHocResult.Err error

end AdHocResult

/-- Embedding of `impl From<Result<T, E>> for AdHocResult<T, E>` (lib.rs
lines 211-216): `Ok(v)` maps to `AdHocResult::Ok(v)` and `Err(e)` to
`AdHocResult::Err(e)`. -/
def adhocFromResult {T E : Type} (result : RResult T E) : AdHocResult T E :=
  match result with
  | RResult.Ok v => AdHocResult.Ok v
  | RResult.Err e => AdHocResult.Err e

/-- Embedding of `impl From<AdHocResult<T, E>> for Result<T, E>` (lib.rs
lines 243-245): `adhoc.to_result()`. -/
def resultFromAdhoc {T E : Type} (adhoc : AdHocResult T E) : RResult T E :=
  adhoc.to_result

/-- Claim C1: for every outcome, `to_result` maps `Success(v)` (source `Ok v`)
to `Ok(v)`, `Degraded(v, e)` (source `AdHoc v e`) to `Err(e)` discarding the
value `v`, and `Failure(e)` (source `Err e`) to `Err(e)`. -/
theorem to_result_spec {T E : Type} (v : T) (e : E) :
    (AdHocResult.Ok v : AdHocResult T E).to_result = RResult.Ok v ∧
    (AdHocResult.AdHoc v e).to_result = RResult.Err e ∧
    (AdHocResult.Err e : AdHocResult T E).to_result = RResult.Err e := by
  refine ⟨rfl, rfl, rfl⟩

/-- Claim C2: for every outcome, `to_result_with_adhoc` maps `Success(v)` to
`Ok(v)`, `Degraded(v, e)` to `Ok(v)` discarding the error, and `Failure(e)`
to `Err(e)`. -/
theorem to_result_with_adhoc_spec {T E : Type} (v : T) (e : E) :
    (AdHocResult.Ok v : AdHocResult T E).to_result_with_adhoc = RResult.Ok v ∧
    (AdHocResult.AdHoc v e).to_result_with_adhoc = RResult.Ok v ∧
    (AdHocResult.Err e : AdHocResult T E).to_result_with_adhoc = RResult.Err e := by
  refine ⟨rfl, rfl, rfl⟩

/-- Claim C3: for every value `v`, constructing with `new_ok` and extracting
with `unwrap` returns `v`, and extracting with `unwrap_adhoc` also returns
`v`; neither extraction aborts on a `Success` outcome. -/
theorem new_ok_unwrap_spec {T E : Type} (v : T) :
    (AdHocResult.new_ok v : AdHocResult T E).unwrap = Except.ok v ∧
    (AdHocResult.new_ok v : AdHocResult T E).unwrap_adhoc = Except.ok v := by
  refine ⟨rfl, rfl⟩

/-- Claim C4: for all `v` and `e`, on `new_adhoc v e`, `unwrap_adhoc` returns
`v`, while `unwrap` aborts (panics), and `expect` aborts with the supplied
message for every message: `Degraded` is not accepted as success by
`expect` or `unwrap`. -/
theorem new_adhoc_unwrap_spec {T E : Type} (v : T) (e : E) :
    (AdHocResult.new_adhoc v e).unwrap_adhoc = Except.ok v ∧
    (AdHocResult.new_adhoc v e).unwrap = Except.error "Unwrap fails" ∧
    (∀ m : String, (AdHocResult.new_adhoc v e).expect m = Except.error m) := by
  refine ⟨rfl, rfl, fun m => rfl⟩

/-- Claim C5: for every `e`, on `new_err e` both `unwrap` and `unwrap_adhoc`
abort (panic), and `expect_adhoc` aborts with the supplied message for every
message. -/
theorem new_err_unwrap_spec {T E : Type} (e : E) :
    (AdHocResult.new_err e : AdHocResult T E).unwrap = Except.error "Unwrap fails" ∧
    (AdHocResult.new_err e : AdHocResult T E).unwrap_adhoc = Except.error "Unwrap fails" ∧
    (∀ m : String,
      (AdHocResult.new_err e : AdHocResult T E).expect_adhoc m = Except.error m) := by
  refine ⟨rfl, rfl, fun m => rfl⟩

/-- Claim C6: the `Result`-to-outcome conversion maps `Ok(v)` to `Success(v)`
and `Err(e)` to `Failure(e)`, never producing a `Degraded` (`AdHoc`) outcome;
the reverse conversion is exactly `to_result`, collapsing `Degraded(v, e)`
to `Err(e)`. -/
theorem from_result_spec {T E : Type} (v : T) (e : E) :
    adhocFromResult (RResult.Ok v : RResult T E) = AdHocResult.Ok v ∧
    adhocFromResult (RResult.Err e : RResult T E) = AdHocResult.Err e ∧
    (∀ (r : RResult T E) (v' : T) (e' : E),
      adhocFromResult r ≠ AdHocResult.AdHoc v' e') ∧
    (∀ a : AdHocResult T E, resultFromAdhoc a = a.to_result) ∧
    resultFromAdhoc (AdHocResult.AdHoc v e) = RResult.Err e := by
  refine ⟨rfl, rfl, ?_, fun a => rfl, rfl⟩
  intro r v' e' h
  cases r <;> simp [adhocFromResult] at h

/-- Claim C7: round-trip on the two-state subset: for every `Result` value
`r`, converting `r` into an outcome and back with `to_result` yields `r`
again, i.e. `to_result` composed with the `From<Result>` conversion is the
identity on `Result`. -/
theorem from_result_to_result_roundtrip {T E : Type} (r : RResult T E) :
    (adhocFromResult r).to_result = r := by
  cases r <;> rfl

/-- Claim C8: for every outcome, `unwrap` behaves identically to `expect`
with the fixed default message "Unwrap fails", and `unwrap_adhoc` behaves
identically to `expect_adhoc` with the same fixed default message. -/
theorem unwrap_eq_expect_default {T E : Type} (o : AdHocResult T E) :
    o.unwrap = o.expect "Unwrap fails" ∧
    o.unwrap_adhoc = o.expect_adhoc "Unwrap fails" := by
  refine ⟨rfl, rfl⟩

/-- Claim C9: the keeping-value conversion also round-trips on the two-state
subset: for every `Result` value `r`, converting `r` into an outcome and then
applying `to_result_with_adhoc` yields `r` again. -/
theorem from_result_to_result_with_adhoc_roundtrip {T E : Type} (r : RResult T E) :
    (adhocFromResult r).to_result_with_adhoc = r := by
  cases r <;> rfl

/-- Claim C10: for every outcome `o`, `unwrap_adhoc o` aborts exactly when
`to_result_with_adhoc o` is an `Err`, and when it does not abort it returns
precisely the value `v` with `to_result_with_adhoc o = Ok v`; likewise
`unwrap o` aborts exactly when `to_result o` is an `Err` and otherwise
returns the `Ok` payload of `to_result o`. -/
theorem unwrap_coherent_with_to_result {T E : Type} (o : AdHocResult T E) :
    ((∃ m, o.unwrap_adhoc = Except.error m) ↔
      (∃ e, o.to_result_with_adhoc = RResult.Err e)) ∧
    (∀ v : T, o.unwrap_adhoc = Except.ok v ↔
      o.to_result_with_adhoc = RResult.Ok v) ∧
    ((∃ m, o.unwrap = Except.error m) ↔ (∃ e, o.to_result = RResult.Err e)) ∧
    (∀ v : T, o.unwrap = Except.ok v ↔ o.to_result = RResult.Ok v) := by
  cases o <;>
    simp [AdHocResult.unwrap, AdHocResult.unwrap_adhoc, AdHocResult.expect,
      AdHocResult.expect_adhoc, AdHocResult.to_result,
      AdHocResult.to_result_with_adhoc]
